import Mathlib

/-!
Verification of the UpDrive personal file-storage service: a shallow
embedding of its content-addressed storage / quota-accounting core
(`app/routers/files.py`, `app/storage.py`, `app/auth.py`, `app/utils.py`,
`app/routers/auth.py`, `app/routers/register.py`, `app/main.py`) and of the
credential-bridge front tier (`webdrive/router.py`), together with theorems
about quota enforcement, dedup, reference-counted blob deletion, ownership
isolation, registration, and credential extraction.

Database tables are embedded as lists kept in insertion order; `find?`
models primary-key / `first()` lookups, `filter` models row deletion, and
`map`-based updates model `session.add` of a mutated row followed by
`commit`. The set of physical blobs on disk is a list of storage names.
Python integers here are natural numbers: `used_bytes` starts at 0, only
grows by upload sizes, and is floored at 0 on delete (`max(0, ...)`), so
truncated `Nat` subtraction coincides with the source's arithmetic.
-/

namespace UpDrive

/-- Error taxonomy of the service (HTTP statuses in `app/routers/files.py`,
`app/routers/auth.py`, `app/routers/register.py`): 413, 404, 403 (ownership),
403 (quota), 401, 400 (duplicate registration). -/
inductive ApiError where
  | payloadTooLarge
  | notFound
  | forbidden
  | quotaExceeded
  | unauthenticated
  | conflict
  deriving Repr, DecidableEq

/-- `User` row from `app/models.py`: id, username, optional email, password
hash, and the quota ledger fields `used_bytes` / `quota_bytes`. -/
structure UserR where
  id : Nat
  username : String
  email : Option String
  hashedPassword : String
  usedBytes : Nat
  quotaBytes : Nat
  deriving Repr, DecidableEq

/-- `Folder` row from `app/models.py`. -/
structure FolderR where
  id : Nat
  name : String
  ownerId : Nat
  parentId : Option Nat
  deriving Repr, DecidableEq

/-- `File` row (logical file record) from `app/models.py`, with the fields
the verified endpoints read or write. `sha256` is always set by the upload
path, so it is a plain `String` here. -/
structure FileR where
  id : Nat
  ownerId : Nat
  folderId : Option Nat
  originalName : String
  storageName : String
  size : Nat
  mimeType : String
  sha256 : String
  downloadCount : Nat
  deriving Repr, DecidableEq

/-- Combined persistent state: the three database tables, the set of
physical blobs on disk (by storage name), and the next auto-increment
primary keys. -/
structure St where
  users : List UserR
  folders : List FolderR
  files : List FileR
  blobs : List String
  nextUserId : Nat
  nextFileId : Nat
  deriving Repr, DecidableEq

/-- `settings.max_upload_size_mb * 1024 * 1024` (`app/routers/files.py` line 29). -/
def maxBytes (maxUploadSizeMb : Nat) : Nat :=
  maxUploadSizeMb * 1024 * 1024

/-- `session.get(User, uid)`: primary-key lookup. -/
def findUser (users : List UserR) (uid : Nat) : Option UserR :=
  users.find? (fun u => u.id == uid)

/-- `session.get(File, fid)`: primary-key lookup. -/
def findFile (files : List FileR) (fid : Nat) : Option FileR :=
  files.find? (fun f => f.id == fid)

/-- `session.get(Folder, fid)`: primary-key lookup. -/
def findFolder (folders : List FolderR) (fid : Nat) : Option FolderR :=
  folders.find? (fun d => d.id == fid)

/-- Commit of a mutated `User` row (`session.add(user); session.commit()`). -/
def updateUser (users : List UserR) (uid : Nat) (g : UserR → UserR) : List UserR :=
  users.map (fun u => if u.id == uid then g u else u)

/-- Commit of a mutated `File` row. -/
def updateFile (files : List FileR) (fid : Nat) (g : FileR → FileR) : List FileR :=
  files.map (fun f => if f.id == fid then g f else f)

/-- `os.remove(saved_path)` / `delete_storage_file` (`app/storage.py`):
best-effort removal of a blob from disk; absence is not an error. -/
def removeBlob (blobs : List String) (name : String) : List String :=
  blobs.filter (fun b => b != name)

/-- `ensure_owner` from `app/utils.py`: 403 unless the resource owner is the
requesting user. -/
def ensure_owner (resourceOwnerId userId : Nat) : Option ApiError :=
  if resourceOwnerId != userId then some ApiError.forbidden else none

/-- Folder guard of `upload_file` (`app/routers/files.py` lines 46-60).
Python tests `if folder_id:` — truthiness, so `folder_id = 0` skips the
check just like `None`. -/
def folderCheck (folders : List FolderR) (uid : Nat) (folderId : Option Nat) :
    Option ApiError :=
  match folderId with
  | none => none
  | some fid =>
    if fid == 0 then none
    else
      match findFolder folders fid with
      | none => some ApiError.notFound
      | some d => if d.ownerId != uid then some ApiError.forbidden else none

/-- The single transactional commit at the end of `upload_file`
(`app/routers/files.py` lines 97-118): the new logical record (whose `size`
is always the freshly observed byte count) and the `used_bytes` increment
are committed together; `blobs2` is the state of the disk after the dedup
decision and `storageUsedName` the storage name the record references. -/
def commitRecord (st : St) (uid : Nat) (user : UserR) (folderId : Option Nat)
    (origName storageUsedName mime : String) (size : Nat) (sha : String)
    (blobs2 : List String) : St × Except ApiError FileR :=
  let f : FileR :=
    { id := st.nextFileId, ownerId := user.id, folderId := folderId,
      originalName := origName, storageName := storageUsedName, size := size,
      mimeType := mime, sha256 := sha, downloadCount := 0 }
  ({ st with
      blobs := blobs2
      files := st.files ++ [f]
      users := updateUser st.users uid
        (fun u => { u with usedBytes := u.usedBytes + size })
      nextFileId := st.nextFileId + 1 },
    Except.ok f)

/-- Quota check, dedup resolution and transactional commit of `upload_file`
(`app/routers/files.py` lines 62-118), entered with the fresh blob already
written under `storageName`. On dedup hit (first record with the same
hash, any owner) the fresh blob is deleted and the existing record's
`storage_name` reused; otherwise the fresh blob is kept and referenced. -/
def upload_quota_commit (st : St) (uid : Nat) (folderId : Option Nat)
    (origName storageName mime : String) (size : Nat) (sha : String) :
    St × Except ApiError FileR :=
  match findUser st.users uid with
  | none =>
    ({ st with blobs := removeBlob st.blobs storageName },
      Except.error ApiError.unauthenticated)
  | some user =>
    if user.usedBytes + size > user.quotaBytes then
      ({ st with blobs := removeBlob st.blobs storageName },
        Except.error ApiError.quotaExceeded)
    else
      match st.files.find? (fun f => f.sha256 == sha) with
      | some existing =>
        commitRecord st uid user folderId origName existing.storageName mime
          size sha (removeBlob st.blobs storageName)
      | none =>
        commitRecord st uid user folderId origName storageName mime
          size sha st.blobs

/-- `upload_file` (`app/routers/files.py` lines 22-118). The content has
already been streamed to disk by `save_upload_file`, which is modelled by
prepending `storageName` to the blob list before any check runs: the size
ceiling and the quota can only be checked after the full write because the
length is unknown upfront. Every rejection path deletes the fresh blob. -/
def upload_file (maxUploadSizeMb : Nat) (st0 : St) (uid : Nat)
    (folderId : Option Nat) (origName storageName mime : String) (size : Nat)
    (sha : String) : St × Except ApiError FileR :=
  if size > maxBytes maxUploadSizeMb then
    ({ st0 with blobs := removeBlob (storageName :: st0.blobs) storageName },
      Except.error ApiError.payloadTooLarge)
  else
    match folderCheck st0.folders uid folderId with
    | some e =>
      ({ st0 with blobs := removeBlob (storageName :: st0.blobs) storageName },
        Except.error e)
    | none =>
      upload_quota_commit { st0 with blobs := storageName :: st0.blobs } uid
        folderId origName storageName mime size sha

/-- `delete_file` (`app/routers/files.py` lines 216-241): ownership check,
`used_bytes` decrement floored at zero, live query for another record with
the same `storage_name` (different id), physical deletion only when none
remains, then row deletion — all in one commit. -/
def delete_file (st : St) (uid : Nat) (fileId : Nat) : St × Except ApiError Unit :=
  match findFile st.files fileId with
  | none => (st, Except.error ApiError.notFound)
  | some f =>
    match ensure_owner f.ownerId uid with
    | some e => (st, Except.error e)
    | none =>
      let users2 :=
        match findUser st.users uid with
        | some _ => updateUser st.users uid
            (fun u => { u with usedBytes := u.usedBytes - f.size })
        | none => st.users
      let others := st.files.any
        (fun g => g.storageName == f.storageName && g.id != f.id)
      let blobs2 := if others then st.blobs else removeBlob st.blobs f.storageName
      ({ st with
          users := users2
          blobs := blobs2
          files := st.files.filter (fun g => g.id != f.id) },
        Except.ok ())

/-- `rename_file` (`app/routers/files.py` lines 182-193). -/
def rename_file (st : St) (uid : Nat) (fileId : Nat) (newName : String) :
    St × Except ApiError FileR :=
  match findFile st.files fileId with
  | none => (st, Except.error ApiError.notFound)
  | some f =>
    match ensure_owner f.ownerId uid with
    | some e => (st, Except.error e)
    | none =>
      let files2 := updateFile st.files f.id
        (fun g => { g with originalName := newName })
      ({ st with files := files2 }, Except.ok { f with originalName := newName })

/-- `move_file` (`app/routers/files.py` lines 196-213). Here the guard is
`if folder_id is not None:` (no truthiness), so a destination of `some 0`
is looked up like any other id. -/
def move_file (st : St) (uid : Nat) (fileId : Nat) (destFolderId : Option Nat) :
    St × Except ApiError FileR :=
  match findFile st.files fileId with
  | none => (st, Except.error ApiError.notFound)
  | some f =>
    match ensure_owner f.ownerId uid with
    | some e => (st, Except.error e)
    | none =>
      match destFolderId with
      | some fid =>
        (match findFolder st.folders fid with
         | none => (st, Except.error ApiError.notFound)
         | some d =>
           if d.ownerId != uid then (st, Except.error ApiError.forbidden)
           else
             let files2 := updateFile st.files f.id
               (fun g => { g with folderId := destFolderId })
             ({ st with files := files2 }, Except.ok { f with folderId := destFolderId }))
      | none =>
        let files2 := updateFile st.files f.id (fun g => { g with folderId := none })
        ({ st with files := files2 }, Except.ok { f with folderId := none })

/-- `get_file_path` (`app/storage.py` lines 44-46): the path when the blob
exists on disk, the empty (falsy) string otherwise. -/
def get_file_path (blobs : List String) (storageName : String) : String :=
  if blobs.contains storageName then "data/files/" ++ storageName else ""

/-- Result of `download_file`: the state, the outcome (resolved path or
error), and the file ids queued as background download-count increments. -/
structure DownloadRes where
  st : St
  outcome : Except ApiError String
  scheduledIncrements : List Nat
  deriving Repr

/-- `download_file` (`app/routers/files.py` lines 159-179): 404 when the
record is missing, ownership check, 404 when the blob is missing on disk;
the `inc_count` background task is added only after the path resolved. -/
def download_file (st : St) (uid : Nat) (fileId : Nat) : DownloadRes :=
  match findFile st.files fileId with
  | none => ⟨st, Except.error ApiError.notFound, []⟩
  | some f =>
    match ensure_owner f.ownerId uid with
    | some e => ⟨st, Except.error e, []⟩
    | none =>
      let path := get_file_path st.blobs f.storageName
      if path == "" then ⟨st, Except.error ApiError.notFound, []⟩
      else ⟨st, Except.ok path, [f.id]⟩

/-- The `inc_count` background task of `download_file`: increments the
record's `download_count` when the record still exists. -/
def inc_count (st : St) (filePk : Nat) : St :=
  let files2 := updateFile st.files filePk
    (fun g => { g with downloadCount := g.downloadCount + 1 })
  { st with files := files2 }

/-- `get_user_by_username` from `app/auth.py`. -/
def get_user_by_username (users : List UserR) (username : String) : Option UserR :=
  users.find? (fun u => u.username == username)

/-- Public user fields returned by registration. -/
structure RegOut where
  id : Nat
  username : String
  email : Option String
  usedBytes : Nat
  quotaBytes : Nat
  deriving Repr, DecidableEq

/-- `register` from `app/routers/auth.py` (lines 15-26): rejects with 400
when the username is already taken, otherwise creates the user with
`used_bytes = 0` and the configured default quota. Only the username is
checked here. -/
def register (st : St) (defaultQuotaBytes : Nat) (username : String)
    (email : Option String) (hashedPassword : String) :
    St × Except ApiError RegOut :=
  match get_user_by_username st.users username with
  | some _ => (st, Except.error ApiError.conflict)
  | none =>
    let u : UserR :=
      { id := st.nextUserId, username := username, email := email,
        hashedPassword := hashedPassword, usedBytes := 0,
        quotaBytes := defaultQuotaBytes }
    let out : RegOut :=
      { id := u.id, username := u.username, email := u.email,
        usedBytes := u.usedBytes, quotaBytes := u.quotaBytes }
    ({ st with users := st.users ++ [u], nextUserId := st.nextUserId + 1 },
      Except.ok out)

/-- `register_user` from `app/routers/register.py` (lines 21-43): rejects
with 400 when the username or the email is already taken. -/
def register_user (st : St) (defaultQuotaBytes : Nat)
    (username email hashedPassword : String) : St × Except ApiError RegOut :=
  match st.users.find? (fun u => u.username == username || u.email == some email) with
  | some _ => (st, Except.error ApiError.conflict)
  | none =>
    let u : UserR :=
      { id := st.nextUserId, username := username, email := some email,
        hashedPassword := hashedPassword, usedBytes := 0,
        quotaBytes := defaultQuotaBytes }
    let out : RegOut :=
      { id := u.id, username := u.username, email := u.email,
        usedBytes := u.usedBytes, quotaBytes := u.quotaBytes }
    ({ st with users := st.users ++ [u], nextUserId := st.nextUserId + 1 },
      Except.ok out)

/-- Effective handler of `POST /auth/register`. `app/main.py` includes the
auth router (whose `register` checks the username only) before the
standalone register router (whose `register_user` also checks the email);
Starlette matches routes in registration order, so the auth router's
handler serves every request to this path and `register_user` is shadowed. -/
def register_endpoint (st : St) (defaultQuotaBytes : Nat) (username : String)
    (email : Option String) (hashedPassword : String) :
    St × Except ApiError RegOut :=
  register st defaultQuotaBytes username email hashedPassword

/-- `_get_token_from_header_or_cookie` (`app/auth.py` lines 43-54): the
`Authorization` header when present, else the `access_token` cookie, else
nothing. -/
def get_token_from_header_or_cookie (authHeader cookie : Option String) :
    Option String :=
  match authHeader with
  | some h => some h
  | none =>
    match cookie with
    | some c => some c
    | none => none

/-- Bearer-marker handling in `get_current_user` (`app/auth.py` lines
66-69), modelled on the character sequence (Python strings index code
points): `token_raw.lower().startswith("bearer ")` is the 7-character
lowercase test, and `split(" ", 1)[1]` of a value passing it is everything
after the first space — which sits at index 6, so the suffix from index 7. -/
def stripBearer (tokenRaw : String) : String :=
  if (tokenRaw.data.map Char.toLower).take 7 = "bearer ".data then
    String.mk (tokenRaw.data.drop 7)
  else tokenRaw

/-- Outcome of credential extraction: either the request is refused before
any token validation, or a candidate token goes on to JWT validation. -/
inductive AuthOutcome where
  | unauthenticated
  | validated (token : String)
  deriving Repr, DecidableEq

/-- Credential-extraction phase of `get_current_user` (`app/auth.py` lines
57-71): no source at all raises 401 before any decode; otherwise the chosen
raw value, stripped of an optional Bearer marker, is handed to validation. -/
def get_current_user_token (authHeader cookie : Option String) : AuthOutcome :=
  match get_token_from_header_or_cookie authHeader cookie with
  | none => AuthOutcome.unauthenticated
  | some raw => AuthOutcome.validated (stripBearer raw)

/-- An HTTP response as relayed by the credential bridge. -/
structure HttpResp where
  status : Nat
  contentType : String
  body : String
  deriving Repr, DecidableEq

/-- The raw value a `/web/api/*` handler in `webdrive/router.py` returns to
FastAPI. On the missing-cookie paths every handler executes
`return ..., status.HTTP_401_UNAUTHORIZED` — a Python tuple of an error
dict and the number 401, not a `Response` object; on the forwarding paths
the handler returns a `Response`/`StreamingResponse` built from the
backend's reply. -/
inductive HandlerValue where
  | errorTuple (msg : String) (second : Nat)
  | response (r : HttpResp)
  deriving Repr, DecidableEq

/-- What a bridge endpoint produced: the handler's return value and the
list of backend URLs it called. -/
structure BridgeOut where
  value : HandlerValue
  backendCalls : List String
  deriving Repr, DecidableEq

/-- FastAPI's treatment of a handler return value: a `Response` object is
sent as-is; any other value is JSON-encoded — a tuple becomes a JSON
array — and sent with the route's declared status code. None of the
`/web/api/*` routes declares one, so the default 200 applies: the 401
inside the tuple ends up in the body, never on the wire. -/
def renderHandlerValue : HandlerValue → HttpResp
  | HandlerValue.errorTuple msg second =>
    { status := 200, contentType := "application/json",
      body := "[\x7b\"error\":\"" ++ msg ++ "\"\x7d," ++ toString second ++ "]" }
  | HandlerValue.response r => r

/-- `web_api_drive` (`webdrive/router.py`): cookie guard, then a backend
GET with the cookie value as a Bearer credential, relayed verbatim. The
`backend` argument stands for the outbound HTTP call (url, authorization). -/
def web_api_drive (apiUrl : String) (cookie : Option String)
    (backend : String → String → HttpResp) : BridgeOut :=
  match cookie with
  | none => ⟨HandlerValue.errorTuple "unauthenticated" 401, []⟩
  | some t =>
    let url := apiUrl ++ "/api/drive"
    ⟨HandlerValue.response (backend url ("Bearer " ++ t)), [url]⟩

/-- `web_api_files` (`webdrive/router.py`): same cookie guard before the
forwarded listing call. -/
def web_api_files (apiUrl : String) (cookie : Option String)
    (backend : String → String → HttpResp) : BridgeOut :=
  match cookie with
  | none => ⟨HandlerValue.errorTuple "unauthenticated" 401, []⟩
  | some t =>
    let url := apiUrl ++ "/api/files"
    ⟨HandlerValue.response (backend url ("Bearer " ++ t)), [url]⟩

/-- `web_api_upload` (`webdrive/router.py`): cookie guard before the
re-encoded multipart POST to the backend. -/
def web_api_upload (apiUrl : String) (cookie : Option String)
    (backend : String → String → HttpResp) : BridgeOut :=
  match cookie with
  | none => ⟨HandlerValue.errorTuple "unauthenticated" 401, []⟩
  | some t =>
    let url := apiUrl ++ "/api/upload"
    ⟨HandlerValue.response (backend url ("Bearer " ++ t)), [url]⟩

/-- `web_api_download` (`webdrive/router.py`): cookie guard before the
streamed passthrough download. -/
def web_api_download (apiUrl : String) (fileId : Nat) (cookie : Option String)
    (backend : String → String → HttpResp) : BridgeOut :=
  match cookie with
  | none => ⟨HandlerValue.errorTuple "unauthenticated" 401, []⟩
  | some t =>
    let url := apiUrl ++ "/api/files/" ++ toString fileId ++ "/download"
    ⟨HandlerValue.response (backend url ("Bearer " ++ t)), [url]⟩

/-- `web_api_delete` (`webdrive/router.py`): cookie guard before the
forwarded DELETE. -/
def web_api_delete (apiUrl : String) (fileId : Nat) (cookie : Option String)
    (backend : String → String → HttpResp) : BridgeOut :=
  match cookie with
  | none => ⟨HandlerValue.errorTuple "unauthenticated" 401, []⟩
  | some t =>
    let url := apiUrl ++ "/api/files/" ++ toString fileId
    ⟨HandlerValue.response (backend url ("Bearer " ++ t)), [url]⟩

/-- `web_api_usage` (`webdrive/router.py`): cookie guard before the
forwarded usage call. -/
def web_api_usage (apiUrl : String) (cookie : Option String)
    (backend : String → String → HttpResp) : BridgeOut :=
  match cookie with
  | none => ⟨HandlerValue.errorTuple "unauthenticated" 401, []⟩
  | some t =>
    let url := apiUrl ++ "/api/usage"
    ⟨HandlerValue.response (backend url ("Bearer " ++ t)), [url]⟩

/-- A create or delete operation by one user, for the quota-conservation
invariant. -/
inductive Op where
  | upload (folderId : Option Nat) (origName storageName mime : String)
      (size : Nat) (sha : String)
  | delete (fileId : Nat)
  deriving Repr

/-- One operation of a user against the service; the post-state is kept
whether the operation succeeded or was rejected. -/
def stepOp (maxUploadSizeMb : Nat) (uid : Nat) (st : St) : Op → St
  | Op.upload folderId origName storageName mime size sha =>
    (upload_file maxUploadSizeMb st uid folderId origName storageName mime size sha).1
  | Op.delete fileId => (delete_file st uid fileId).1

/-- A sequence of operations by one user. -/
def runOps (maxUploadSizeMb : Nat) (uid : Nat) (st : St) (ops : List Op) : St :=
  ops.foldl (stepOp maxUploadSizeMb uid) st

/-- Total logical size of a user's records. -/
def ownedSize (files : List FileR) (uid : Nat) : Nat :=
  ((files.filter (fun f => f.ownerId == uid)).map (fun f => f.size)).sum

/-- The quota-conservation invariant: the user's `used_bytes` equals the sum
of the logical sizes of the user's currently existing records. -/
def QuotaInv (st : St) (uid : Nat) : Prop :=
  ∀ u, findUser st.users uid = some u → u.usedBytes = ownedSize st.files uid

/-- Well-formedness of the file table: primary keys are distinct and below
the auto-increment counter. -/
def WF (st : St) : Prop :=
  st.files.Pairwise (fun a b => a.id ≠ b.id) ∧ ∀ f ∈ st.files, f.id < st.nextFileId

/-! ### Helper lemmas -/

lemma contains_removeBlob (l : List String) (name : String) :
    (removeBlob l name).contains name = false := by
  simp [removeBlob]

lemma ensure_owner_of_ne {a b : Nat} (h : a ≠ b) :
    ensure_owner a b = some ApiError.forbidden := by
  simp [ensure_owner, h]

lemma ensure_owner_of_eq {a b : Nat} (h : a = b) : ensure_owner a b = none := by
  simp [ensure_owner, h]

lemma stripBearer_append_bearer (t : String) : stripBearer ("Bearer " ++ t) = t := by
  unfold stripBearer
  rw [if_pos]
  · rw [String.data_append,
      show (7 : Nat) = ("Bearer ".data).length from rfl, List.drop_left]
  · rw [String.data_append, List.map_append,
      show ("Bearer ".data.map Char.toLower) = "bearer ".data from by decide,
      show (7 : Nat) = ("bearer ".data).length from rfl, List.take_left]

lemma stripBearer_of_no_marker (t : String)
    (h : (t.data.map Char.toLower).take 7 ≠ "bearer ".data) : stripBearer t = t := by
  simp [stripBearer, h]

lemma upload_commit_quota_error (st : St) (uid : Nat) (folderId : Option Nat)
    (origName storageName mime : String) (size : Nat) (sha : String)
    (user : UserR) (huser : findUser st.users uid = some user)
    (hq : user.usedBytes + size > user.quotaBytes) :
    upload_quota_commit st uid folderId origName storageName mime size sha
      = ({ st with blobs := removeBlob st.blobs storageName },
          Except.error ApiError.quotaExceeded) := by
  unfold upload_quota_commit
  rw [huser]
  dsimp only
  rw [if_pos hq]

lemma upload_commit_ok (st : St) (uid : Nat) (folderId : Option Nat)
    (origName storageName mime : String) (size : Nat) (sha : String)
    (user : UserR) (huser : findUser st.users uid = some user)
    (hq : ¬ user.usedBytes + size > user.quotaBytes) :
    ∃ f, (upload_quota_commit st uid folderId origName storageName mime size sha).2
      = Except.ok f := by
  unfold upload_quota_commit
  rw [huser]
  dsimp only
  rw [if_neg hq]
  cases hd : st.files.find? (fun f => f.sha256 == sha) <;>
    exact ⟨_, rfl⟩

lemma findUser_updateUser (users : List UserR) (uid : Nat) (g : UserR → UserR)
    (hg : ∀ v, (g v).id = v.id) (u : UserR)
    (hu : findUser users uid = some u) :
    findUser (updateUser users uid g) uid = some (g u) := by
  induction users with
  | nil => simp [findUser] at hu
  | cons a l ih =>
    by_cases h : (a.id == uid) = true
    · unfold findUser at hu
      rw [List.find?_cons_of_pos (p := fun (u : UserR) => u.id == uid) _ h] at hu
      injection hu with hu
      subst hu
      unfold updateUser findUser
      simp only [List.map_cons, if_pos h]
      rw [List.find?_cons_of_pos (p := fun (u : UserR) => u.id == uid) _
        (show ((g a).id == uid) = true from by rw [hg a]; exact h)]
    · unfold findUser at hu
      rw [List.find?_cons_of_neg (p := fun (u : UserR) => u.id == uid) _ h] at hu
      unfold updateUser findUser
      simp only [List.map_cons, if_neg h]
      rw [List.find?_cons_of_neg (p := fun (u : UserR) => u.id == uid) _ h]
      exact ih hu

lemma ownedSize_cons (a : FileR) (t : List FileR) (uid : Nat) :
    ownedSize (a :: t) uid
      = (if a.ownerId == uid then a.size else 0) + ownedSize t uid := by
  by_cases h : (a.ownerId == uid) = true <;>
    simp [ownedSize, List.filter_cons, h]

lemma ownedSize_append_single (l : List FileR) (f : FileR) (uid : Nat) :
    ownedSize (l ++ [f]) uid
      = ownedSize l uid + (if f.ownerId == uid then f.size else 0) := by
  by_cases h : (f.ownerId == uid) = true <;>
    simp [ownedSize, List.filter_append, List.filter_cons, h]

lemma ownedSize_filter_ne (l : List FileR) (fid : Nat) (f : FileR) (uid : Nat)
    (hpw : l.Pairwise (fun a b => a.id ≠ b.id))
    (hf : l.find? (fun g => g.id == fid) = some f) :
    ownedSize (l.filter (fun g => g.id != f.id)) uid
      + (if f.ownerId == uid then f.size else 0) = ownedSize l uid := by
  induction l with
  | nil => simp at hf
  | cons a t ih =>
    rw [List.pairwise_cons] at hpw
    by_cases h : (a.id == fid) = true
    · rw [List.find?_cons_of_pos (p := fun (g : FileR) => g.id == fid) _ h] at hf
      injection hf with hf
      subst hf
      rw [List.filter_cons, if_neg (by simp)]
      have hkeep : t.filter (fun g => g.id != a.id) = t := by
        apply List.filter_eq_self.mpr
        intro g hg
        simp only [bne_iff_ne]
        exact (hpw.1 g hg).symm
      rw [hkeep, ownedSize_cons]
      omega
    · rw [List.find?_cons_of_neg (p := fun (g : FileR) => g.id == fid) _ h] at hf
      have hfid : (f.id == fid) = true :=
        List.find?_some (p := fun (g : FileR) => g.id == fid) hf
      have hane : a.id ≠ f.id := by
        intro he
        exact h (he ▸ hfid)
      rw [List.filter_cons, if_pos (bne_iff_ne.mpr hane)]
      rw [ownedSize_cons, ownedSize_cons]
      have hrec := ih hpw.2 hf
      omega

lemma commitRecord_preserves (st : St) (uid : Nat) (user : UserR)
    (folderId : Option Nat) (origName storageUsedName mime : String)
    (size : Nat) (sha : String) (blobs2 : List String)
    (hwf : WF st) (hinv : QuotaInv st uid)
    (hu : findUser st.users uid = some user) :
    WF (commitRecord st uid user folderId origName storageUsedName mime size sha blobs2).1
    ∧ QuotaInv
        (commitRecord st uid user folderId origName storageUsedName mime size sha blobs2).1
        uid := by
  have huid : user.id = uid := by
    have := List.find?_some hu
    simpa using this
  dsimp only [commitRecord]
  constructor
  · constructor
    · rw [List.pairwise_append]
      refine ⟨hwf.1, by simp, ?_⟩
      intro a ha b hb
      simp only [List.mem_singleton] at hb
      subst hb
      exact Nat.ne_of_lt (hwf.2 a ha)
    · intro g hg
      rcases List.mem_append.mp hg with h1 | h1
      · have := hwf.2 g h1
        show g.id < st.nextFileId + 1
        omega
      · simp only [List.mem_singleton] at h1
        subst h1
        exact Nat.lt_succ_self _
  · intro u' hu'
    have hupd := findUser_updateUser st.users uid
      (fun u => { u with usedBytes := u.usedBytes + size }) (fun v => rfl) user hu
    rw [hupd] at hu'
    injection hu' with hu'
    subst hu'
    have hbase := hinv user hu
    dsimp only
    rw [ownedSize_append_single]
    simp only [huid, beq_self_eq_true, if_true]
    omega

lemma upload_preserves (mb : Nat) (st : St) (uid : Nat) (folderId : Option Nat)
    (origName storageName mime : String) (size : Nat) (sha : String)
    (hwf : WF st) (hinv : QuotaInv st uid) :
    WF (upload_file mb st uid folderId origName storageName mime size sha).1
    ∧ QuotaInv (upload_file mb st uid folderId origName storageName mime size sha).1
        uid := by
  unfold upload_file
  by_cases hs : size > maxBytes mb
  · rw [if_pos hs]
    exact ⟨hwf, hinv⟩
  · rw [if_neg hs]
    cases hfc : folderCheck st.folders uid folderId with
    | some e => exact ⟨hwf, hinv⟩
    | none =>
      unfold upload_quota_commit
      dsimp only
      cases hu : findUser st.users uid with
      | none => exact ⟨hwf, hinv⟩
      | some user =>
        dsimp only
        by_cases hq : user.usedBytes + size > user.quotaBytes
        · rw [if_pos hq]
          exact ⟨hwf, hinv⟩
        · rw [if_neg hq]
          cases hd : st.files.find? (fun f => f.sha256 == sha) with
          | some existing =>
            exact commitRecord_preserves { st with blobs := storageName :: st.blobs }
              uid user folderId origName existing.storageName mime size sha _ hwf hinv hu
          | none =>
            exact commitRecord_preserves { st with blobs := storageName :: st.blobs }
              uid user folderId origName storageName mime size sha _ hwf hinv hu

lemma delete_preserves (st : St) (uid fileId : Nat)
    (hwf : WF st) (hinv : QuotaInv st uid) :
    WF (delete_file st uid fileId).1
    ∧ QuotaInv (delete_file st uid fileId).1 uid := by
  unfold delete_file
  cases hf : findFile st.files fileId with
  | none => exact ⟨hwf, hinv⟩
  | some f =>
    dsimp only
    cases ho : ensure_owner f.ownerId uid with
    | some e => exact ⟨hwf, hinv⟩
    | none =>
      have hown : f.ownerId = uid := by
        by_contra hne
        rw [ensure_owner_of_ne hne] at ho
        cases ho
      dsimp only
      constructor
      · constructor
        · exact hwf.1.sublist (List.filter_sublist _)
        · intro g hg
          exact hwf.2 g (List.mem_of_mem_filter hg)
      · cases hu : findUser st.users uid with
        | none =>
          intro u' hu'
          rw [hu] at hu'
          cases hu'
        | some user =>
          dsimp only
          intro u' hu'
          have hupd := findUser_updateUser st.users uid
            (fun u => { u with usedBytes := u.usedBytes - f.size }) (fun v => rfl) user hu
          rw [hupd] at hu'
          injection hu' with hu'
          subst hu'
          have hbase := hinv user hu
          have hsum := ownedSize_filter_ne st.files fileId f uid hwf.1 hf
          rw [if_pos (show (f.ownerId == uid) = true by simp [hown])] at hsum
          dsimp only
          omega

lemma stepOp_preserves (mb uid : Nat) (st : St) (op : Op)
    (h : WF st ∧ QuotaInv st uid) :
    WF (stepOp mb uid st op) ∧ QuotaInv (stepOp mb uid st op) uid := by
  cases op with
  | upload folderId origName storageName mime size sha =>
    exact upload_preserves mb st uid folderId origName storageName mime size sha h.1 h.2
  | delete fileId => exact delete_preserves st uid fileId h.1 h.2

lemma runOps_preserves (mb uid : Nat) (st : St) (ops : List Op)
    (h : WF st ∧ QuotaInv st uid) :
    WF (runOps mb uid st ops) ∧ QuotaInv (runOps mb uid st ops) uid := by
  induction ops generalizing st with
  | nil => exact h
  | cons op rest ih => exact ih (stepOp mb uid st op) (stepOp_preserves mb uid st op h)

/-! ### Theorems -/

/-- C7 (code bug): on every proxy endpoint (drive, files, upload,
download, delete, usage) a request with no `access_token` cookie makes the
handler return the `(error-dict, 401)` tuple immediately with no outbound
backend call — the intended 401 is written into the tuple — but the tuple
is not a `Response`, so FastAPI JSON-encodes it as an array and sends the
route's default status: the wire carries 200, not the 401 the claim (and
the handler's own `status.HTTP_401_UNAUTHORIZED`) intends. -/
theorem C7_bridge_missing_cookie_bug (apiUrl : String) (fileId : Nat)
    (backend : String → String → HttpResp) :
    web_api_drive apiUrl none backend
        = ⟨HandlerValue.errorTuple "unauthenticated" 401, []⟩
    ∧ web_api_files apiUrl none backend
        = ⟨HandlerValue.errorTuple "unauthenticated" 401, []⟩
    ∧ web_api_upload apiUrl none backend
        = ⟨HandlerValue.errorTuple "unauthenticated" 401, []⟩
    ∧ web_api_download apiUrl fileId none backend
        = ⟨HandlerValue.errorTuple "unauthenticated" 401, []⟩
    ∧ web_api_delete apiUrl fileId none backend
        = ⟨HandlerValue.errorTuple "unauthenticated" 401, []⟩
    ∧ web_api_usage apiUrl none backend
        = ⟨HandlerValue.errorTuple "unauthenticated" 401, []⟩
    ∧ (renderHandlerValue (HandlerValue.errorTuple "unauthenticated" 401)).status = 200
    ∧ (renderHandlerValue (HandlerValue.errorTuple "unauthenticated" 401)).status ≠ 401 :=
  ⟨rfl, rfl, rfl, rfl, rfl, rfl, rfl, by decide⟩

/-- C8: the backend credential is the `Authorization` header when present
(also when a cookie is present too), else the `access_token` cookie; in
either source an optional `Bearer ` marker is stripped and the raw value
kept otherwise; with neither source the outcome is unauthenticated, before
any token validation. -/
theorem C8_credential_sources (h c t : String) :
    get_current_user_token (some h) (some c) = AuthOutcome.validated (stripBearer h)
    ∧ get_current_user_token (some h) none = AuthOutcome.validated (stripBearer h)
    ∧ get_current_user_token none (some c) = AuthOutcome.validated (stripBearer c)
    ∧ get_current_user_token none none = AuthOutcome.unauthenticated
    ∧ stripBearer ("Bearer " ++ t) = t
    ∧ ((t.data.map Char.toLower).take 7 ≠ "bearer ".data → stripBearer t = t) :=
  ⟨rfl, rfl, rfl, rfl, stripBearer_append_bearer t, stripBearer_of_no_marker t⟩

theorem C8_credential_sources_witness :
    (("tok42".data.map Char.toLower).take 7 ≠ "bearer ".data)
    ∧ stripBearer "tok42" = "tok42"
    ∧ stripBearer ("Bearer " ++ "tok42") = "tok42"
    ∧ get_current_user_token (some "Bearer tok42") (some "other")
        = AuthOutcome.validated (stripBearer "Bearer tok42")
    ∧ get_current_user_token none none = AuthOutcome.unauthenticated :=
  ⟨by decide,
    (C8_credential_sources "a" "b" "tok42").2.2.2.2.2 (by decide),
    (C8_credential_sources "a" "b" "tok42").2.2.2.2.1,
    (C8_credential_sources "Bearer tok42" "other" "t").1,
    (C8_credential_sources "a" "b" "t").2.2.2.1⟩

/-- C9: an upload whose received size exceeds
`max_upload_size_mb * 1024 * 1024` bytes — a check that can only run after
the full content is on disk, modelled by the fresh blob being present
before the check — is rejected with PayloadTooLarge, the fresh blob is
removed, and neither the file table nor the user table changes. -/
theorem C9_oversize_rejection (mb : Nat) (st0 : St) (uid : Nat)
    (folderId : Option Nat) (origName storageName mime : String) (size : Nat)
    (sha : String) (hsize : size > maxBytes mb) :
    (upload_file mb st0 uid folderId origName storageName mime size sha).2
        = Except.error ApiError.payloadTooLarge
    ∧ (upload_file mb st0 uid folderId origName storageName mime size sha).1.blobs.contains
        storageName = false
    ∧ (upload_file mb st0 uid folderId origName storageName mime size sha).1.files
        = st0.files
    ∧ (upload_file mb st0 uid folderId origName storageName mime size sha).1.users
        = st0.users := by
  unfold upload_file
  rw [if_pos hsize]
  exact ⟨rfl, contains_removeBlob _ _, rfl, rfl⟩

theorem C9_oversize_rejection_witness :
    (2 : Nat) > maxBytes 0
    ∧ (upload_file 0 ⟨[], [], [], [], 1, 1⟩ 1 none "a" "sn" "t" 2 "H").2
        = Except.error ApiError.payloadTooLarge
    ∧ (upload_file 0 ⟨[], [], [], [], 1, 1⟩ 1 none "a" "sn" "t" 2 "H").1.blobs.contains
        "sn" = false :=
  ⟨by decide,
    (C9_oversize_rejection 0 ⟨[], [], [], [], 1, 1⟩ 1 none "a" "sn" "t" 2 "H" (by decide)).1,
    (C9_oversize_rejection 0 ⟨[], [], [], [], 1, 1⟩ 1 none "a" "sn" "t" 2 "H" (by decide)).2.1⟩

/-- C5: rename, move, delete and download of a record owned by a different
user all fail with Forbidden and leave the state (record, quota ledgers,
blobs) unmodified; for download nothing is scheduled either. -/
theorem C5_ownership_isolation (st : St) (uid fileId : Nat) (newName : String)
    (dest : Option Nat) (f : FileR)
    (hf : findFile st.files fileId = some f)
    (hne : f.ownerId ≠ uid) :
    rename_file st uid fileId newName = (st, Except.error ApiError.forbidden)
    ∧ move_file st uid fileId dest = (st, Except.error ApiError.forbidden)
    ∧ delete_file st uid fileId = (st, Except.error ApiError.forbidden)
    ∧ download_file st uid fileId = ⟨st, Except.error ApiError.forbidden, []⟩ := by
  have ho := ensure_owner_of_ne hne
  refine ⟨?_, ?_, ?_, ?_⟩ <;>
    simp [rename_file, move_file, delete_file, download_file, hf, ho]

theorem C5_ownership_isolation_witness :
    findFile ([⟨1, 1, none, "a", "sn", 5, "t", "H", 0⟩] : List FileR) 1
        = some ⟨1, 1, none, "a", "sn", 5, "t", "H", 0⟩
    ∧ (1 : Nat) ≠ 2
    ∧ rename_file ⟨[], [], [⟨1, 1, none, "a", "sn", 5, "t", "H", 0⟩], ["sn"], 1, 2⟩ 2 1 "b"
        = (⟨[], [], [⟨1, 1, none, "a", "sn", 5, "t", "H", 0⟩], ["sn"], 1, 2⟩,
            Except.error ApiError.forbidden) :=
  ⟨by decide, by decide,
    (C5_ownership_isolation ⟨[], [], [⟨1, 1, none, "a", "sn", 5, "t", "H", 0⟩], ["sn"], 1, 2⟩
      2 1 "b" none ⟨1, 1, none, "a", "sn", 5, "t", "H", 0⟩ (by decide) (by decide)).1⟩

/-- C3: an owner's delete succeeds, and the physical blob is gone from the
backing store afterwards exactly when no other logical record (different
id, any owner) referenced the same storage name at delete time. -/
theorem C3_refcounted_blob_delete (st : St) (uid fileId : Nat) (f : FileR)
    (hf : findFile st.files fileId = some f)
    (hown : f.ownerId = uid)
    (hblob : st.blobs.contains f.storageName = true) :
    (delete_file st uid fileId).2 = Except.ok ()
    ∧ ((delete_file st uid fileId).1.blobs.contains f.storageName = false
        ↔ st.files.any (fun g => g.storageName == f.storageName && g.id != f.id)
            = false) := by
  have ho := ensure_owner_of_eq hown
  have hmem : f.storageName ∈ st.blobs := by simpa using hblob
  unfold delete_file
  rw [hf]
  dsimp only
  rw [ho]
  refine ⟨rfl, ?_⟩
  by_cases hothers :
      st.files.any (fun g => g.storageName == f.storageName && g.id != f.id) = true
  · simp only [hothers, if_pos]
    simp [hothers, hmem]
  · rw [if_neg hothers]
    simp only [Bool.not_eq_true] at hothers
    simp [hothers, contains_removeBlob, removeBlob]

theorem C3_refcounted_blob_delete_witness :
    findFile ([⟨1, 1, none, "a", "sn", 5, "t", "H", 0⟩] : List FileR) 1
        = some ⟨1, 1, none, "a", "sn", 5, "t", "H", 0⟩
    ∧ (["sn"].contains "sn" = true)
    ∧ ((delete_file ⟨[⟨1, "u", none, "h", 5, 9⟩], [], [⟨1, 1, none, "a", "sn", 5, "t", "H", 0⟩], ["sn"], 2, 2⟩ 1 1).1.blobs.contains "sn" = false
        ↔ ([⟨1, 1, none, "a", "sn", 5, "t", "H", 0⟩] : List FileR).any
            (fun g => g.storageName == "sn" && g.id != 1) = false) :=
  ⟨by decide, by decide,
    (C3_refcounted_blob_delete
      ⟨[⟨1, "u", none, "h", 5, 9⟩], [], [⟨1, 1, none, "a", "sn", 5, "t", "H", 0⟩], ["sn"], 2, 2⟩
      1 1 ⟨1, 1, none, "a", "sn", 5, "t", "H", 0⟩ (by decide) rfl (by decide)).2⟩

/-- C10: a download by the owner of an existing record whose blob is absent
from the backing store yields NotFound, leaves the state (hence the
record's download counter) unchanged, and schedules no counter increment;
moreover on any erroneous download nothing is ever scheduled — the
increment is queued only after the path resolved. -/
theorem C10_download_missing_blob (st : St) (uid fileId : Nat) (f : FileR)
    (hf : findFile st.files fileId = some f)
    (hown : f.ownerId = uid)
    (hmiss : st.blobs.contains f.storageName = false) :
    download_file st uid fileId = ⟨st, Except.error ApiError.notFound, []⟩
    ∧ ∀ (st2 : St) (uid2 fid2 : Nat) (e : ApiError),
        (download_file st2 uid2 fid2).outcome = Except.error e →
        (download_file st2 uid2 fid2).scheduledIncrements = [] := by
  have ho := ensure_owner_of_eq hown
  have hmem : f.storageName ∉ st.blobs := by simpa using hmiss
  constructor
  · unfold download_file
    rw [hf]
    dsimp only
    rw [ho]
    simp [get_file_path, hmem]
  · intro st2 uid2 fid2 e
    unfold download_file
    split
    · intro _; rfl
    · split
      · intro _; rfl
      · dsimp only
        split
        · intro _; rfl
        · intro hcontra; simp at hcontra

theorem C10_download_missing_blob_witness :
    findFile ([⟨1, 1, none, "a", "sn", 5, "t", "H", 7⟩] : List FileR) 1
        = some ⟨1, 1, none, "a", "sn", 5, "t", "H", 7⟩
    ∧ (([] : List String).contains "sn" = false)
    ∧ download_file ⟨[⟨1, "u", none, "h", 5, 9⟩], [], [⟨1, 1, none, "a", "sn", 5, "t", "H", 7⟩], [], 2, 2⟩ 1 1
        = ⟨⟨[⟨1, "u", none, "h", 5, 9⟩], [], [⟨1, 1, none, "a", "sn", 5, "t", "H", 7⟩], [], 2, 2⟩,
            Except.error ApiError.notFound, []⟩ :=
  ⟨by decide, by decide,
    (C10_download_missing_blob
      ⟨[⟨1, "u", none, "h", 5, 9⟩], [], [⟨1, 1, none, "a", "sn", 5, "t", "H", 7⟩], [], 2, 2⟩
      1 1 ⟨1, 1, none, "a", "sn", 5, "t", "H", 7⟩ (by decide) rfl (by decide)).1⟩

/-- C1: for an upload passing the size ceiling and folder guards, the
outcome is the quota error exactly when `used_bytes + size > quota_bytes`
(so an upload exactly filling the quota is accepted); on that rejection
the fresh blob is removed and neither the file table nor the user table
(in particular `used_bytes`) changes. -/
theorem C1_quota_boundary (mb : Nat) (st0 : St) (uid : Nat)
    (folderId : Option Nat) (origName storageName mime : String) (size : Nat)
    (sha : String) (user : UserR)
    (hsize : size ≤ maxBytes mb)
    (hfold : folderCheck st0.folders uid folderId = none)
    (huser : findUser st0.users uid = some user) :
    ((upload_file mb st0 uid folderId origName storageName mime size sha).2
        = Except.error ApiError.quotaExceeded
      ↔ user.usedBytes + size > user.quotaBytes)
    ∧ (user.usedBytes + size > user.quotaBytes →
        (upload_file mb st0 uid folderId origName storageName mime size sha).1.blobs.contains
            storageName = false
        ∧ (upload_file mb st0 uid folderId origName storageName mime size sha).1.files
            = st0.files
        ∧ (upload_file mb st0 uid folderId origName storageName mime size sha).1.users
            = st0.users)
    ∧ (user.usedBytes + size ≤ user.quotaBytes →
        ∃ f, (upload_file mb st0 uid folderId origName storageName mime size sha).2
          = Except.ok f) := by
  have hns : ¬ size > maxBytes mb := Nat.not_lt.mpr hsize
  unfold upload_file
  rw [if_neg hns, hfold]
  dsimp only
  by_cases hq : user.usedBytes + size > user.quotaBytes
  · have he := upload_commit_quota_error { st0 with blobs := storageName :: st0.blobs }
      uid folderId origName storageName mime size sha user huser hq
    rw [he]
    refine ⟨⟨fun _ => hq, fun _ => rfl⟩, fun _ => ⟨contains_removeBlob _ _, rfl, rfl⟩,
      fun hle => absurd hq (by omega)⟩
  · obtain ⟨f, hok⟩ := upload_commit_ok { st0 with blobs := storageName :: st0.blobs }
      uid folderId origName storageName mime size sha user huser hq
    refine ⟨⟨?_, fun h => absurd h hq⟩, fun h => absurd h hq, fun _ => ⟨f, hok⟩⟩
    intro h
    rw [hok] at h
    exact absurd h (by simp)

theorem C1_quota_boundary_witness :
    ((6 : Nat) ≤ maxBytes 1)
    ∧ folderCheck [] 1 none = none
    ∧ findUser [⟨1, "alice", none, "h", 0, 5⟩] 1 = some ⟨1, "alice", none, "h", 0, 5⟩
    ∧ ((upload_file 1 ⟨[⟨1, "alice", none, "h", 0, 5⟩], [], [], [], 2, 1⟩ 1 none "a" "sn" "t" 6 "H").2
        = Except.error ApiError.quotaExceeded ↔ (0 : Nat) + 6 > 5) :=
  ⟨by decide, rfl, by decide,
    (C1_quota_boundary 1 ⟨[⟨1, "alice", none, "h", 0, 5⟩], [], [], [], 2, 1⟩ 1 none
      "a" "sn" "t" 6 "H" ⟨1, "alice", none, "h", 0, 5⟩ (by decide) rfl (by decide)).1⟩

/-- C2: for an accepted upload whose hash matches an existing record (any
owner), the fresh blob is deleted, the new record references the existing
record's storage name, and its logical size is the freshly observed byte
count (for every matching record, also when its stored size differs); with
no matching record the fresh blob is kept and referenced by the new
record. -/
theorem C2_dedup_resolution (mb : Nat) (st0 : St) (uid : Nat)
    (folderId : Option Nat) (origName storageName mime : String) (size : Nat)
    (sha : String) (user : UserR)
    (hsize : size ≤ maxBytes mb)
    (hfold : folderCheck st0.folders uid folderId = none)
    (huser : findUser st0.users uid = some user)
    (hq : ¬ user.usedBytes + size > user.quotaBytes) :
    (∀ ex, st0.files.find? (fun g => g.sha256 == sha) = some ex →
      ∃ f, (upload_file mb st0 uid folderId origName storageName mime size sha).2
          = Except.ok f
        ∧ f.storageName = ex.storageName
        ∧ f.size = size
        ∧ (upload_file mb st0 uid folderId origName storageName mime size sha).1.blobs.contains
            storageName = false
        ∧ (upload_file mb st0 uid folderId origName storageName mime size sha).1.files
            = st0.files ++ [f])
    ∧ (st0.files.find? (fun g => g.sha256 == sha) = none →
      ∃ f, (upload_file mb st0 uid folderId origName storageName mime size sha).2
          = Except.ok f
        ∧ f.storageName = storageName
        ∧ f.size = size
        ∧ (upload_file mb st0 uid folderId origName storageName mime size sha).1.blobs.contains
            storageName = true
        ∧ (upload_file mb st0 uid folderId origName storageName mime size sha).1.files
            = st0.files ++ [f]) := by
  have hns : ¬ size > maxBytes mb := Nat.not_lt.mpr hsize
  unfold upload_file
  rw [if_neg hns, hfold]
  dsimp only
  unfold upload_quota_commit
  rw [huser]
  dsimp only
  rw [if_neg hq]
  constructor
  · intro ex hex
    rw [hex]
    exact ⟨_, rfl, rfl, rfl, contains_removeBlob _ _, rfl⟩
  · intro hnone
    rw [hnone]
    exact ⟨_, rfl, rfl, rfl, by simp [commitRecord], rfl⟩

theorem C2_dedup_resolution_witness :
    ((7 : Nat) ≤ maxBytes 1)
    ∧ findUser [⟨1, "alice", none, "h", 0, 100⟩] 1 = some ⟨1, "alice", none, "h", 0, 100⟩
    ∧ ¬ ((0 : Nat) + 7 > 100)
    ∧ ([⟨1, 2, none, "a", "snOld", 7, "t", "H", 0⟩] : List FileR).find?
        (fun g => g.sha256 == "H") = some ⟨1, 2, none, "a", "snOld", 7, "t", "H", 0⟩
    ∧ ∃ f, (upload_file 1
          ⟨[⟨1, "alice", none, "h", 0, 100⟩], [], [⟨1, 2, none, "a", "snOld", 7, "t", "H", 0⟩], ["snOld"], 2, 2⟩
          1 none "b" "snNew" "t" 7 "H").2 = Except.ok f
        ∧ f.storageName = "snOld"
        ∧ f.size = 7
        ∧ (upload_file 1
            ⟨[⟨1, "alice", none, "h", 0, 100⟩], [], [⟨1, 2, none, "a", "snOld", 7, "t", "H", 0⟩], ["snOld"], 2, 2⟩
            1 none "b" "snNew" "t" 7 "H").1.blobs.contains "snNew" = false
        ∧ (upload_file 1
            ⟨[⟨1, "alice", none, "h", 0, 100⟩], [], [⟨1, 2, none, "a", "snOld", 7, "t", "H", 0⟩], ["snOld"], 2, 2⟩
            1 none "b" "snNew" "t" 7 "H").1.files
          = [⟨1, 2, none, "a", "snOld", 7, "t", "H", 0⟩] ++
              [⟨2, 1, none, "b", "snOld", 7, "t", "H", 0⟩] := by
  refine ⟨by decide, by decide, by decide, by decide, ?_⟩
  obtain ⟨f, h1, h2, h3, h4, h5⟩ :=
    (C2_dedup_resolution 1
      ⟨[⟨1, "alice", none, "h", 0, 100⟩], [], [⟨1, 2, none, "a", "snOld", 7, "t", "H", 0⟩], ["snOld"], 2, 2⟩
      1 none "b" "snNew" "t" 7 "H" ⟨1, "alice", none, "h", 0, 100⟩
      (by decide) rfl (by decide) (by decide)).1
      ⟨1, 2, none, "a", "snOld", 7, "t", "H", 0⟩ (by decide)
  refine ⟨f, h1, h2, h3, h4, ?_⟩
  rw [h5]
  have : f = ⟨2, 1, none, "b", "snOld", 7, "t", "H", 0⟩ := by
    have := h1
    simp only [upload_file, upload_quota_commit, commitRecord] at this
    exact (Except.ok.injEq _ _ ▸ this).symm ▸ rfl
  rw [this]

/-- C6 counterexample: with an existing user holding email "a@x", a
registration for a fresh username "bob" with that same taken email
succeeds with a 201-style result and creates the user — the effective
`POST /auth/register` handler never checks the email. -/
theorem C6_counterexample :
    (([⟨1, "alice", some "a@x", "h", 0, 9⟩] : List UserR).any
        (fun u => u.email == some "a@x") = true)
    ∧ (register_endpoint ⟨[⟨1, "alice", some "a@x", "h", 0, 9⟩], [], [], [], 2, 1⟩
        9 "bob" (some "a@x") "h2").2
        = Except.ok ⟨2, "bob", some "a@x", 0, 9⟩
    ∧ (register_endpoint ⟨[⟨1, "alice", some "a@x", "h", 0, 9⟩], [], [], [], 2, 1⟩
        9 "bob" (some "a@x") "h2").1.users
        = [⟨1, "alice", some "a@x", "h", 0, 9⟩, ⟨2, "bob", some "a@x", "h2", 0, 9⟩] :=
  ⟨by decide, rfl, rfl⟩

/-- C6 (amended): `POST /auth/register` fails with 400 exactly when the
requested username already belongs to an existing user — a taken email
alone is not rejected, because the email-checking handler is shadowed by
the earlier-registered route; otherwise the user is created and the
public fields returned. -/
theorem C6_register_username_only (st : St) (dq : Nat) (un : String)
    (em : Option String) (hp : String) :
    ((register_endpoint st dq un em hp).2 = Except.error ApiError.conflict
      ↔ ∃ u ∈ st.users, u.username = un)
    ∧ ((∀ u ∈ st.users, u.username ≠ un) →
        (register_endpoint st dq un em hp).1.users
          = st.users ++ [⟨st.nextUserId, un, em, hp, 0, dq⟩]
        ∧ (register_endpoint st dq un em hp).2
          = Except.ok ⟨st.nextUserId, un, em, 0, dq⟩) := by
  unfold register_endpoint register get_user_by_username
  cases hfind : st.users.find? (fun u => u.username == un) with
  | some u =>
    dsimp only
    have hu : u ∈ st.users := List.mem_of_find?_eq_some hfind
    have hun : u.username = un := by simpa using List.find?_some hfind
    refine ⟨⟨fun _ => ⟨u, hu, hun⟩, fun _ => rfl⟩, fun hall => absurd hun (hall u hu)⟩
  | none =>
    dsimp only
    refine ⟨⟨fun h => absurd h (by simp), fun hex => ?_⟩, fun _ => ⟨rfl, rfl⟩⟩
    obtain ⟨u, hu, hun⟩ := hex
    have := List.find?_eq_none.mp hfind u hu
    simp [hun] at this

theorem C6_register_username_only_witness :
    (∀ u ∈ ([⟨1, "alice", some "a@x", "h", 0, 9⟩] : List UserR), u.username ≠ "bob")
    ∧ (register_endpoint ⟨[⟨1, "alice", some "a@x", "h", 0, 9⟩], [], [], [], 2, 1⟩
        9 "bob" none "h2").1.users
      = [⟨1, "alice", some "a@x", "h", 0, 9⟩] ++ [⟨2, "bob", none, "h2", 0, 9⟩]
    ∧ (register_endpoint ⟨[⟨1, "alice", some "a@x", "h", 0, 9⟩], [], [], [], 2, 1⟩
        9 "bob" none "h2").2 = Except.ok ⟨2, "bob", none, 0, 9⟩ :=
  ⟨by decide,
    ((C6_register_username_only ⟨[⟨1, "alice", some "a@x", "h", 0, 9⟩], [], [], [], 2, 1⟩
      9 "bob" none "h2").2 (by decide)).1,
    ((C6_register_username_only ⟨[⟨1, "alice", some "a@x", "h", 0, 9⟩], [], [], [], 2, 1⟩
      9 "bob" none "h2").2 (by decide)).2⟩

/-- C4: starting from a freshly registered account (`used_bytes = 0`, no
records yet), after any sequence of upload/delete operations by that user —
each operation either committed or rejected — the user's `used_bytes`
equals the sum of the logical sizes of the user's currently existing
records. Since the operation list is arbitrary, the invariant holds after
every step of any longer sequence as well. -/
theorem C4_quota_conservation (mb uid : Nat) (st0 : St) (u0 : UserR)
    (ops : List Op)
    (hwf : WF st0)
    (hu : findUser st0.users uid = some u0)
    (h0 : u0.usedBytes = 0)
    (hfresh : ownedSize st0.files uid = 0) :
    QuotaInv (runOps mb uid st0 ops) uid := by
  have hinv : QuotaInv st0 uid := by
    intro u hu2
    rw [hu] at hu2
    injection hu2 with hu2
    subst hu2
    rw [h0, hfresh]
  exact (runOps_preserves mb uid st0 ops ⟨hwf, hinv⟩).2

theorem C4_quota_conservation_witness :
    WF ⟨[⟨1, "alice", none, "h", 0, 100⟩], [], [], [], 2, 1⟩
    ∧ findUser [⟨1, "alice", none, "h", 0, 100⟩] 1
        = some ⟨1, "alice", none, "h", 0, 100⟩
    ∧ ((⟨1, "alice", none, "h", 0, 100⟩ : UserR)).usedBytes = 0
    ∧ ownedSize [] 1 = 0
    ∧ QuotaInv (runOps 1 1 ⟨[⟨1, "alice", none, "h", 0, 100⟩], [], [], [], 2, 1⟩
        [Op.upload none "a" "sn1" "t" 10 "H1", Op.upload none "b" "sn2" "t" 20 "H2",
          Op.delete 1]) 1 :=
  ⟨⟨by simp, by simp⟩, by decide, rfl, rfl,
    C4_quota_conservation 1 1 ⟨[⟨1, "alice", none, "h", 0, 100⟩], [], [], [], 2, 1⟩
      ⟨1, "alice", none, "h", 0, 100⟩
      [Op.upload none "a" "sn1" "t" 10 "H1", Op.upload none "b" "sn2" "t" 20 "H2",
        Op.delete 1]
      ⟨by simp, by simp⟩ (by decide) rfl rfl⟩

end UpDrive
